import Mathlib

/-!
# Traced lookup service (`main.go`)

A shallow embedding of the instrumented HTTP service: the bootstrap
(`main`, `initTracingAndMetrics`, `connectDB`, `initDB`) and the per-request
pipeline (`getUserHandler`, `fetchUserByID`).

The OpenTelemetry SDK, gin, `database/sql` and the clock are libraries outside
the repository.  They are modelled at their interface: every call the program
makes on them appends an `Event` to the `World`, and every value they hand back
that the program branches on (an exporter constructor's error, a statement's
error, the scanned row, the elapsed time) is supplied by an environment record.
Go statements are kept in source order; a `defer` is run by `deferred` when the
enclosing function returns.
-/

namespace Tracing

/-! ## Data model -/

abbrev SpanID := Nat

/-- Status of a span (`codes.Unset`, `codes.Error`, `codes.Ok`).  A span is
created `unset` and only `Span.SetStatus` changes it. -/
inductive SpanStatus where
  | unset
  | error
  | ok
deriving DecidableEq, Repr

/-- Key/value attributes (`attribute.String(k, v)`), and JSON objects with
string members (`gin.H`). -/
abbrev Attrs := List (String × String)

/-- The part of a `context.Context` the program depends on: the active span. -/
structure Context where
  span : Option SpanID
deriving DecidableEq, Repr

/-- Errors `QueryRowContext(...).Scan` can return. -/
inductive DBError where
  | noRows
  | canceled
  | failure (msg : String)
deriving DecidableEq, Repr

/-- Outcome of `db.QueryRowContext(...).Scan(&name)`: `err` and the scanned `name`. -/
inductive ScanResult where
  | row (name : String)
  | err (e : DBError)
deriving DecidableEq, Repr

/-- The package-level metric instruments. -/
inductive Instrument where
  | reqCount
  | queryTime
deriving DecidableEq, Repr

/-- Trace exporter built by `initTracingAndMetrics`. -/
inductive Exporter where
  | stdout
  | jaeger
deriving DecidableEq, Repr

/-- A span handle as returned by `Tracer.Start`. -/
structure Span where
  id : SpanID
  tracer : String
  name : String
  parent : Option SpanID
  status : SpanStatus
deriving DecidableEq, Repr

/-- Observable calls on the external libraries, in program order. -/
inductive Event where
  | spanStart (id : SpanID) (tracer : String) (name : String) (parent : Option SpanID)
  | spanEnd (id : SpanID) (status : SpanStatus)
  | counterAdd (inst : Instrument) (ctx : Context) (delta : Int) (attrs : Attrs)
  | histRecord (inst : Instrument) (ctx : Context) (value : Int) (attrs : Attrs)
  | sleep (ms : Nat)
  | queryRow (ctx : Context) (sql : String) (arg : String) (res : ScanResult)
  | respond (code : Nat) (body : Attrs)
  | setTracerProvider (exp : Exporter)
  | setMeterProvider
  | newInstrument (inst : Instrument) (name : String)
  | dbOpen (err : Option String)
  | dbRegisterStats (err : Option String)
  | dbExec (sql : String) (args : List String) (err : Option String)
  | logPrintln (msg : String)
  | logFatal (msg : String)
  | use (middleware : String)
  | route (method : String) (path : String)
  | listen (addr : String)
deriving DecidableEq, Repr

/-- Process-wide state: what `otel.SetTracerProvider` / `otel.SetMeterProvider`
published and the package-level variables of `main.go`.  `none` is the state
before anything was published or assigned. -/
structure Globals where
  tracerProvider : Option Exporter
  meterProvider : Option Unit
  meter : Option String
  reqCount : Option String
  queryTime : Option String
  db : Option Unit
  traceMode : String
deriving DecidableEq, Repr

structure World where
  nextSpan : SpanID
  events : List Event
  globals : Globals
deriving DecidableEq, Repr

/-- State of a freshly started process. -/
def World.init : World :=
  { nextSpan := 0, events := [],
    globals := { tracerProvider := none, meterProvider := none, meter := none,
                 reqCount := none, queryTime := none, db := none, traceMode := "" } }

/-- Append one event to the log. -/
def emit (e : Event) : StateM World Unit :=
  fun w => ((), { w with events := w.events ++ [e] })

/-- Run `body`, then the deferred call `fin`, and return what `body` returned. -/
def deferred {α : Type} (fin : StateM World Unit) (body : StateM World α) : StateM World α :=
  fun w =>
    let (a, w1) := body w
    let (_, w2) := fin w1
    (a, w2)

/-! ## OpenTelemetry interface -/

/-- The call `otel.Tracer(tracer).Start(ctx, name)`: a new span whose parent is the span
active in `ctx` (a root when there is none), and a derived context in which the
new span is active. -/
def tracerStart (tracer : String) (ctx : Context) (name : String) :
    StateM World (Context × Span) :=
  fun w =>
    let span : Span :=
      { id := w.nextSpan, tracer := tracer, name := name, parent := ctx.span, status := .unset }
    (({ span := some span.id }, span),
     { w with nextSpan := w.nextSpan + 1,
              events := w.events ++ [.spanStart span.id tracer name ctx.span] })

/-- The call `span.End()`. -/
def Span.End (s : Span) : StateM World Unit :=
  emit (.spanEnd s.id s.status)

/-! ## Request pipeline -/

/-- What the outside world answers during one request: the outcome of the one
data-store call and `time.Since(start).Milliseconds()` (an integer number of
milliseconds, which the program converts to `float64` before recording). -/
structure Env where
  scan : ScanResult
  sinceMs : Int

/-- The `*gin.Context` of a request: `c.Request.Context()` and `c.Param("id")`. -/
structure Request where
  ctx : Context
  id : String
deriving DecidableEq, Repr

/-- Go's `(string, error)` result of `fetchUserByID`. -/
abbrev Lookup := String × Option DBError

/-- Source lines 164-187.  The span handle is ended by the deferred call; the
query span is ended by a plain call right after the histogram record. -/
def fetchUserByID (env : Env) (ctx : Context) (id : String) : StateM World Lookup := do
  let (ctx, span) ← tracerStart "db" ctx "fetchUserByID"
  deferred span.End do
    emit (.sleep 50)
    let (queryCtx, querySpan) ← tracerStart "db" ctx "SQL SELECT"
    emit (.queryRow queryCtx "SELECT name FROM users WHERE id = ?" id env.scan)
    emit (.histRecord .queryTime queryCtx env.sinceMs [("query", "SELECT user")])
    querySpan.End
    match env.scan with
    | .err e => return ("", some e)
    | .row name => return (name, none)

/-- Source lines 145-162.  The context derived by `tr.Start` is discarded
(the source binds it to the blank identifier) and the request context `ctx` is
what the counter and `fetchUserByID` receive.  The handler is registered only
after both startup routines succeeded, so `reqCount`, `queryTime` and `db` are
assigned when it runs. -/
def getUserHandler (env : Env) (c : Request) : StateM World Unit := do
  let ctx := c.ctx
  let (_, span) ← tracerStart "handler" ctx "getUserHandler"
  deferred span.End do
    let id := c.id
    emit (.counterAdd .reqCount ctx 1 [("route", "/user/:id")])
    let (name, err) ← fetchUserByID env ctx id
    match err with
    | some _ => emit (.respond 404 [("error", "user not found")])
    | none => emit (.respond 200 [("id", id), ("name", name)])

/-- Events a run added to the log of the world it started from. -/
def added (w : World) (w1 : World) : List Event :=
  w1.events.drop w.events.length

/-- The events one request adds. -/
def requestEvents (env : Env) (c : Request) (w : World) : List Event :=
  added w (getUserHandler env c w).2

/-- The events one call of `fetchUserByID` adds. -/
def fetchEvents (env : Env) (ctx : Context) (id : String) (w : World) : List Event :=
  added w (fetchUserByID env ctx id w).2

/-- Requests handled one after another, each with its own answers from outside. -/
def serve : List (Env × Request) → StateM World Unit
  | [] => pure ()
  | (env, c) :: rest => do
    getUserHandler env c
    serve rest

/-! ## Bootstrap -/

/-- How a startup routine stops: it returns a value, or `log.Fatal`/`log.Fatalf`
ends the process. -/
inductive Run (α : Type) where
  | returned (a : α)
  | exited
deriving DecidableEq, Repr

/-- Startup code: state passing, cut short when the process exits. -/
def Boot (α : Type) : Type := World → Run α × World

def Boot.pure {α : Type} (a : α) : Boot α :=
  fun w => (.returned a, w)

def Boot.bind {α β : Type} (m : Boot α) (f : α → Boot β) : Boot β :=
  fun w =>
    match m w with
    | (.returned a, w1) => f a w1
    | (.exited, w1) => (.exited, w1)

instance instMonadBoot : Monad Boot where
  pure := Boot.pure
  bind := Boot.bind

/-- Append one event to the log during startup. -/
def note (e : Event) : Boot Unit :=
  fun w => (.returned (), { w with events := w.events ++ [e] })

/-- The calls `log.Fatal` and `log.Fatalf`: print and `os.Exit(1)`. -/
def logFatal {α : Type} (msg : String) : Boot α :=
  fun w => (.exited, { w with events := w.events ++ [.logFatal msg] })

/-- Change the process-wide state. -/
def setGlobals (f : Globals → Globals) : Boot Unit :=
  fun w => (.returned (), { w with globals := f w.globals })

/-- The error (`none` for `nil`) each library call of the startup sequence
returns when it is reached. -/
structure BootEnv where
  stdouttraceNew : Option String
  jaegerNew : Option String
  stdoutmetricNew : Option String
  otelsqlOpen : Option String
  registerDBStatsMetrics : Option String
  createTable : Option String
  insertSeed : Option String
deriving DecidableEq, Repr

/-- The statement creating the table (the source's raw string, whitespace
collapsed). -/
def createUsersSQL : String :=
  "CREATE TABLE IF NOT EXISTS users ( id INTEGER PRIMARY KEY, name TEXT NOT NULL )"

/-- The seeding statement, run with the arguments `1` and `"Alice"`. -/
def insertUserSQL : String :=
  "INSERT INTO users (id, name) VALUES (?, ?)"

/-- Source lines 57-105.  The resource descriptor is built first and its error
is ignored by the source; it has no influence on control flow.  The instrument
constructors' errors are ignored by the source as well. -/
def initTracingAndMetrics (env : BootEnv) (mode : String) : Boot (Option String) := do
  let (traceExp, err) ←
    if mode = "stdout" then pure (Exporter.stdout, env.stdouttraceNew)
    else if mode = "jaeger" then pure (Exporter.jaeger, env.jaegerNew)
    else logFatal ("Unknown trace mode: " ++ mode)
  match err with
  | some e => pure (some e)
  | none => do
    note (.setTracerProvider traceExp)
    setGlobals fun g => { g with tracerProvider := some traceExp }
    match env.stdoutmetricNew with
    | some e => pure (some e)
    | none => do
      note .setMeterProvider
      setGlobals fun g => { g with meterProvider := some () }
      setGlobals fun g => { g with meter := some "sqlite-metrics" }
      note (.newInstrument .reqCount "http_requests_total")
      setGlobals fun g => { g with reqCount := some "http_requests_total" }
      note (.newInstrument .queryTime "db_query_duration_ms")
      setGlobals fun g => { g with queryTime := some "db_query_duration_ms" }
      pure none

/-- Source lines 107-122: both failures end the process. -/
def connectDB (env : BootEnv) : Boot Unit := do
  note (.dbOpen env.otelsqlOpen)
  match env.otelsqlOpen with
  | some e => logFatal e
  | none => do
    note (.dbRegisterStats env.registerDBStatsMetrics)
    match env.registerDBStatsMetrics with
    | some e => logFatal e
    | none => pure ()

/-- Source lines 124-143. -/
def initDB (env : BootEnv) : Boot (Option String) := do
  let handle ← connectDB env
  setGlobals fun g => { g with db := some handle }
  note (.dbExec createUsersSQL [] env.createTable)
  match env.createTable with
  | some e => pure (some e)
  | none => do
    note (.dbExec insertUserSQL ["1", "Alice"] env.insertSeed)
    match env.insertSeed with
    | some e => note (.logPrintln ("Insert may have already been done: " ++ e))
    | none => pure ()
    pure none

/-- The value of the `-trace` flag after `flag.Parse()`: the default `"stdout"`
when the flag is not given. -/
def parseTrace (flag : Option String) : String :=
  flag.getD "stdout"

/-- The program entry point; `flag` is the `-trace` command-line flag.  It ends
by exiting or in `r.Run(":8080")`. -/
def main (env : BootEnv) (flag : Option String) : Boot Unit := do
  setGlobals fun g => { g with traceMode := parseTrace flag }
  match (← initTracingAndMetrics env (parseTrace flag)) with
  | some e => logFatal ("init failed: " ++ e)
  | none => do
    match (← initDB env) with
    | some e => logFatal ("DB init failed: " ++ e)
    | none => do
      note (.use "otelgin sqlite-traced-service")
      note (.route "GET" "/user/:id")
      note (.logPrintln "Running on :8080")
      note (.listen ":8080")

/-! ## Concrete environments -/

/-- Every library call of the startup sequence succeeds. -/
def envOK : BootEnv :=
  { stdouttraceNew := none, jaegerNew := none, stdoutmetricNew := none, otelsqlOpen := none,
    registerDBStatsMetrics := none, createTable := none, insertSeed := none }

/-- The store already holds the record with id 1: the seeding insert fails. -/
def envDuplicateSeed : BootEnv :=
  { envOK with insertSeed := some "UNIQUE constraint failed: users.id" }

/-- The statement creating the table fails. -/
def envCreateFails : BootEnv :=
  { envOK with createTable := some "disk I/O error" }

/-- The console trace exporter cannot be built. -/
def envTraceFails : BootEnv :=
  { envOK with stdouttraceNew := some "no trace writer" }

/-- The console metrics exporter cannot be built. -/
def envMetricFails : BootEnv :=
  { envOK with stdoutmetricNew := some "no console" }

/-! ## Observations on event logs -/

/-- Names of the spans started, in order. -/
def startedNames (evs : List Event) : List String :=
  evs.filterMap fun e => match e with
    | .spanStart _ _ name _ => some name
    | _ => none

/-- Identifiers of the spans started, in order. -/
def startedSpans (evs : List Event) : List SpanID :=
  evs.filterMap fun e => match e with
    | .spanStart id _ _ _ => some id
    | _ => none

/-- Identifiers of the spans ended, in order. -/
def endedSpans (evs : List Event) : List SpanID :=
  evs.filterMap fun e => match e with
    | .spanEnd id _ => some id
    | _ => none

/-- Identifier of the first span started under `name`. -/
def spanNamed (name : String) (evs : List Event) : Option SpanID :=
  evs.findSome? fun e => match e with
    | .spanStart id _ n _ => if n = name then some id else none
    | _ => none

/-- Parent recorded when span `id` was started (`some none` for a root). -/
def parentOf (id : SpanID) (evs : List Event) : Option (Option SpanID) :=
  evs.findSome? fun e => match e with
    | .spanStart i _ _ parent => if i = id then some parent else none
    | _ => none

/-- Status span `id` had when it was ended. -/
def endStatus (id : SpanID) (evs : List Event) : Option SpanStatus :=
  evs.findSome? fun e => match e with
    | .spanEnd i st => if i = id then some st else none
    | _ => none

/-- Both events occur and the first occurrence of `a` precedes that of `b`. -/
def occursBefore (a b : Event) (evs : List Event) : Bool :=
  decide (evs.indexOf a < evs.indexOf b ∧ evs.indexOf b < evs.length)

/-- Stack discipline of span events: a span may end only when it is the most
recently started span still open, and at the end nothing is open. -/
def wellNested : List SpanID → List Event → Bool
  | open_, [] => open_.isEmpty
  | open_, .spanStart id _ _ _ :: rest => wellNested (id :: open_) rest
  | [], .spanEnd _ _ :: _ => false
  | top :: open_, .spanEnd id _ :: rest => decide (top = id) && wellNested open_ rest
  | open_, _ :: rest => wellNested open_ rest

/-- Histogram records in a log. -/
def histRecords (evs : List Event) : List Event :=
  evs.filter fun e => match e with
    | .histRecord _ _ _ _ => true
    | _ => false

/-- Counter additions in a log. -/
def counterAdds (evs : List Event) : List Event :=
  evs.filter fun e => match e with
    | .counterAdd _ _ _ _ => true
    | _ => false

/-- Responses written in a log. -/
def responses (evs : List Event) : List Event :=
  evs.filter fun e => match e with
    | .respond _ _ => true
    | _ => false

/-- Sum of all additions made to counter `inst`. -/
def counterTotal (inst : Instrument) : List Event → Int
  | [] => 0
  | .counterAdd i _ delta _ :: rest =>
    (if i = inst then delta else 0) + counterTotal inst rest
  | _ :: rest => counterTotal inst rest

/-- Events of the startup sequence that publish a provider or an instrument,
touch the data store, or bind the port. -/
def startupEffects (evs : List Event) : List Event :=
  evs.filter fun e => match e with
    | .setTracerProvider _ => true
    | .setMeterProvider => true
    | .newInstrument _ _ => true
    | .dbOpen _ => true
    | .dbRegisterStats _ => true
    | .dbExec _ _ _ => true
    | .listen _ => true
    | _ => false

/-! ## Facts about the request pipeline -/

/-- The log of a request whose query yields a row. -/
theorem requestEvents_row (c : Request) (w : World) (name : String) (ms : Int) :
    requestEvents { scan := .row name, sinceMs := ms } c w =
      [ .spanStart w.nextSpan "handler" "getUserHandler" c.ctx.span,
        .counterAdd .reqCount c.ctx 1 [("route", "/user/:id")],
        .spanStart (w.nextSpan + 1) "db" "fetchUserByID" c.ctx.span,
        .sleep 50,
        .spanStart (w.nextSpan + 2) "db" "SQL SELECT" (some (w.nextSpan + 1)),
        .queryRow { span := some (w.nextSpan + 2) } "SELECT name FROM users WHERE id = ?" c.id
          (.row name),
        .histRecord .queryTime { span := some (w.nextSpan + 2) } ms [("query", "SELECT user")],
        .spanEnd (w.nextSpan + 2) .unset,
        .spanEnd (w.nextSpan + 1) .unset,
        .respond 200 [("id", c.id), ("name", name)],
        .spanEnd w.nextSpan .unset ] := by
  simp [requestEvents, added, getUserHandler, fetchUserByID, deferred, tracerStart, emit,
    Span.End, bind, StateT.bind, pure, StateT.pure]

/-- The log of a request whose query yields an error. -/
theorem requestEvents_err (c : Request) (w : World) (e : DBError) (ms : Int) :
    requestEvents { scan := .err e, sinceMs := ms } c w =
      [ .spanStart w.nextSpan "handler" "getUserHandler" c.ctx.span,
        .counterAdd .reqCount c.ctx 1 [("route", "/user/:id")],
        .spanStart (w.nextSpan + 1) "db" "fetchUserByID" c.ctx.span,
        .sleep 50,
        .spanStart (w.nextSpan + 2) "db" "SQL SELECT" (some (w.nextSpan + 1)),
        .queryRow { span := some (w.nextSpan + 2) } "SELECT name FROM users WHERE id = ?" c.id
          (.err e),
        .histRecord .queryTime { span := some (w.nextSpan + 2) } ms [("query", "SELECT user")],
        .spanEnd (w.nextSpan + 2) .unset,
        .spanEnd (w.nextSpan + 1) .unset,
        .respond 404 [("error", "user not found")],
        .spanEnd w.nextSpan .unset ] := by
  simp [requestEvents, added, getUserHandler, fetchUserByID, deferred, tracerStart, emit,
    Span.End, bind, StateT.bind, pure, StateT.pure]

/-- The log of one call of `fetchUserByID`. -/
theorem fetchEvents_eq (env : Env) (ctx : Context) (id : String) (w : World) :
    fetchEvents env ctx id w =
      [ .spanStart w.nextSpan "db" "fetchUserByID" ctx.span,
        .sleep 50,
        .spanStart (w.nextSpan + 1) "db" "SQL SELECT" (some w.nextSpan),
        .queryRow { span := some (w.nextSpan + 1) } "SELECT name FROM users WHERE id = ?" id
          env.scan,
        .histRecord .queryTime { span := some (w.nextSpan + 1) } env.sinceMs
          [("query", "SELECT user")],
        .spanEnd (w.nextSpan + 1) .unset,
        .spanEnd w.nextSpan .unset ] := by
  obtain ⟨scan, ms⟩ := env
  cases scan <;>
    simp [fetchEvents, added, fetchUserByID, deferred, tracerStart, emit,
      Span.End, bind, StateT.bind, pure, StateT.pure]

/-- A request only appends to the log. -/
theorem getUserHandler_events (env : Env) (c : Request) (w : World) :
    (getUserHandler env c w).2.events = w.events ++ requestEvents env c w := by
  obtain ⟨scan, ms⟩ := env
  cases scan <;>
    simp [requestEvents, added, getUserHandler, fetchUserByID, deferred, tracerStart, emit,
      Span.End, bind, StateT.bind, pure, StateT.pure]

theorem counterTotal_append (inst : Instrument) (xs ys : List Event) :
    counterTotal inst (xs ++ ys) = counterTotal inst xs + counterTotal inst ys := by
  induction xs with
  | nil => simp [counterTotal]
  | cons e rest ih =>
    cases e <;> simp [counterTotal, ih, add_assoc]

theorem counterTotal_request (env : Env) (c : Request) (w : World) :
    counterTotal .reqCount (requestEvents env c w) = 1 := by
  obtain ⟨scan, ms⟩ := env
  cases scan <;> simp [requestEvents_row, requestEvents_err, counterTotal]

/-- Serving requests in sequence raises the request counter by their number. -/
theorem serve_counterTotal (reqs : List (Env × Request)) (w : World) :
    counterTotal .reqCount (serve reqs w).2.events =
      counterTotal .reqCount w.events + reqs.length := by
  induction reqs generalizing w with
  | nil => simp [serve, pure, StateT.pure]
  | cons r rest ih =>
    obtain ⟨env, c⟩ := r
    have h := ih (getUserHandler env c w).2
    have step : (serve ((env, c) :: rest) w).2 = (serve rest (getUserHandler env c w).2).2 := rfl
    rw [step, h, getUserHandler_events, counterTotal_append, counterTotal_request]
    simp [add_assoc, add_comm]

/-! ## Claims about the request pipeline -/

/-- C1: whatever the path parameter, the request context and the outcome of the
query, one request starts exactly the three spans getUserHandler, fetchUserByID
and SQL SELECT, under three distinct identifiers, ends each of them exactly
once, so that as many spans are ended as are started, and the last thing the
handler does is end its own span. -/
theorem request_spans_all_ended (env : Env) (c : Request) (w : World) :
    startedNames (requestEvents env c w) = ["getUserHandler", "fetchUserByID", "SQL SELECT"]
    ∧ startedSpans (requestEvents env c w) = [w.nextSpan, w.nextSpan + 1, w.nextSpan + 2]
    ∧ (startedSpans (requestEvents env c w)).map
        (fun id => (endedSpans (requestEvents env c w)).count id) = [1, 1, 1]
    ∧ (endedSpans (requestEvents env c w)).length
        = (startedSpans (requestEvents env c w)).length
    ∧ (requestEvents env c w).getLast? = some (.spanEnd w.nextSpan .unset) := by
  obtain ⟨scan, ms⟩ := env
  cases scan <;>
    simp [requestEvents_row, requestEvents_err, startedNames, startedSpans, endedSpans]

/-- C2: every call of fetchUserByID records exactly one measurement, into the
queryTime histogram with the attribute query = "SELECT user", whether the query
yields a row or an error; the record comes after the data-store call and before
the end of the query span. -/
theorem fetch_records_query_time_once (env : Env) (ctx : Context) (id : String) (w : World) :
    histRecords (fetchEvents env ctx id w)
      = [.histRecord .queryTime { span := some (w.nextSpan + 1) } env.sinceMs
          [("query", "SELECT user")]]
    ∧ occursBefore
        (.queryRow { span := some (w.nextSpan + 1) } "SELECT name FROM users WHERE id = ?" id
          env.scan)
        (.histRecord .queryTime { span := some (w.nextSpan + 1) } env.sinceMs
          [("query", "SELECT user")])
        (fetchEvents env ctx id w) = true
    ∧ occursBefore
        (.histRecord .queryTime { span := some (w.nextSpan + 1) } env.sinceMs
          [("query", "SELECT user")])
        (.spanEnd (w.nextSpan + 1) .unset)
        (fetchEvents env ctx id w) = true
    ∧ spanNamed "SQL SELECT" (fetchEvents env ctx id w) = some (w.nextSpan + 1) := by
  simp [fetchEvents_eq, histRecords, occursBefore, List.indexOf_cons, spanNamed]

/-- C4: every request writes exactly one response: status 200 with the object
id = the path parameter, name = the scanned value when the query yields a row,
status 404 with the object error = "user not found" when it yields an error; the
status is 200 exactly when the query returned without error. -/
theorem request_one_response (env : Env) (c : Request) (w : World) :
    responses (requestEvents env c w)
      = [match env.scan with
         | .row name => .respond 200 [("id", c.id), ("name", name)]
         | .err _ => .respond 404 [("error", "user not found")]]
    ∧ ((∃ body, responses (requestEvents env c w) = [.respond 200 body])
        ↔ ∃ name, env.scan = .row name) := by
  obtain ⟨scan, ms⟩ := env
  cases scan <;>
    simp [requestEvents_row, requestEvents_err, responses]

/-- C6: on the success path and on the error path the span events of a request
obey the stack discipline: the query span ends first, then the business-logic
span, then the handler span, and no span ends while a later one is open. -/
theorem request_spans_nested (env : Env) (c : Request) (w : World) :
    wellNested [] (requestEvents env c w) = true
    ∧ spanNamed "getUserHandler" (requestEvents env c w) = some w.nextSpan
    ∧ spanNamed "fetchUserByID" (requestEvents env c w) = some (w.nextSpan + 1)
    ∧ spanNamed "SQL SELECT" (requestEvents env c w) = some (w.nextSpan + 2)
    ∧ endedSpans (requestEvents env c w) = [w.nextSpan + 2, w.nextSpan + 1, w.nextSpan]
    ∧ occursBefore (.spanEnd (w.nextSpan + 2) .unset) (.spanEnd (w.nextSpan + 1) .unset)
        (requestEvents env c w) = true
    ∧ occursBefore (.spanEnd (w.nextSpan + 1) .unset) (.spanEnd w.nextSpan .unset)
        (requestEvents env c w) = true := by
  obtain ⟨scan, ms⟩ := env
  cases scan <;>
    simp [requestEvents_row, requestEvents_err, wellNested, spanNamed, endedSpans,
      occursBefore, List.indexOf_cons]

/-- C8: every request adds exactly 1 to the request counter, once, with the
attribute route = "/user/:id", after the handler span is started and before the
lookup is issued, whatever the outcome of the query; after the requests of a
list have been handled one after another the counter has grown by the length of
the list. -/
theorem request_counted_once (env : Env) (c : Request) (w : World)
    (reqs : List (Env × Request)) :
    counterAdds (requestEvents env c w)
      = [.counterAdd .reqCount c.ctx 1 [("route", "/user/:id")]]
    ∧ occursBefore (.spanStart w.nextSpan "handler" "getUserHandler" c.ctx.span)
        (.counterAdd .reqCount c.ctx 1 [("route", "/user/:id")])
        (requestEvents env c w) = true
    ∧ occursBefore (.counterAdd .reqCount c.ctx 1 [("route", "/user/:id")])
        (.spanStart (w.nextSpan + 1) "db" "fetchUserByID" c.ctx.span)
        (requestEvents env c w) = true
    ∧ occursBefore (.counterAdd .reqCount c.ctx 1 [("route", "/user/:id")])
        (.queryRow { span := some (w.nextSpan + 2) } "SELECT name FROM users WHERE id = ?" c.id
          env.scan)
        (requestEvents env c w) = true
    ∧ counterTotal .reqCount (serve reqs w).2.events
        = counterTotal .reqCount w.events + reqs.length
    ∧ counterTotal .reqCount (serve reqs World.init).2.events = reqs.length := by
  refine ⟨?_, ?_, ?_, ?_, serve_counterTotal reqs w, ?_⟩
  · obtain ⟨scan, ms⟩ := env
    cases scan <;> simp [requestEvents_row, requestEvents_err, counterAdds]
  · obtain ⟨scan, ms⟩ := env
    cases scan <;> simp [requestEvents_row, requestEvents_err, occursBefore, List.indexOf_cons]
  · obtain ⟨scan, ms⟩ := env
    cases scan <;> simp [requestEvents_row, requestEvents_err, occursBefore, List.indexOf_cons]
  · obtain ⟨scan, ms⟩ := env
    cases scan <;> simp [requestEvents_row, requestEvents_err, occursBefore, List.indexOf_cons]
  · rw [serve_counterTotal]
    simp [World.init, counterTotal]

/-- Every request starts the business-logic span from the request's own
context, and the query span from the context derived for the business-logic
span. -/
theorem request_span_parents (env : Env) (c : Request) (w : World) :
    parentOf w.nextSpan (requestEvents env c w) = some c.ctx.span
    ∧ parentOf (w.nextSpan + 1) (requestEvents env c w) = some c.ctx.span
    ∧ parentOf (w.nextSpan + 2) (requestEvents env c w) = some (some (w.nextSpan + 1)) := by
  obtain ⟨scan, ms⟩ := env
  cases scan <;>
    simp [requestEvents_row, requestEvents_err, parentOf]

/-- C5: for the request for id "1" whose context carries span 0 (the span of
the router middleware), answered with the row "Alice", the handler span is
span 1 and the business-logic span is span 2, whose parent is span 0 and not
the handler span 1; the query span 3 is a child of span 2. -/
theorem business_span_is_sibling_of_handler_span :
    spanNamed "getUserHandler"
      (requestEvents { scan := .row "Alice", sinceMs := 0 } { ctx := { span := some 0 }, id := "1" }
        { World.init with nextSpan := 1 }) = some 1
    ∧ spanNamed "fetchUserByID"
      (requestEvents { scan := .row "Alice", sinceMs := 0 } { ctx := { span := some 0 }, id := "1" }
        { World.init with nextSpan := 1 }) = some 2
    ∧ parentOf 2
      (requestEvents { scan := .row "Alice", sinceMs := 0 } { ctx := { span := some 0 }, id := "1" }
        { World.init with nextSpan := 1 }) = some (some 0)
    ∧ parentOf 2
      (requestEvents { scan := .row "Alice", sinceMs := 0 } { ctx := { span := some 0 }, id := "1" }
        { World.init with nextSpan := 1 }) ≠ some (some 1)
    ∧ parentOf 3
      (requestEvents { scan := .row "Alice", sinceMs := 0 } { ctx := { span := some 0 }, id := "1" }
        { World.init with nextSpan := 1 }) = some (some 2) := by
  simp [requestEvents_row, spanNamed, parentOf, World.init]

/-- C10, as stated, fails: for the request for id "1" whose query is cut short
by cancellation, the handler span is not ended with status error. -/
theorem cancelled_request_status_not_error :
    ¬ ∃ h, spanNamed "getUserHandler"
        (requestEvents { scan := .err .canceled, sinceMs := 7 }
          { ctx := { span := some 0 }, id := "1" } { World.init with nextSpan := 1 }) = some h
      ∧ endStatus h
        (requestEvents { scan := .err .canceled, sinceMs := 7 }
          { ctx := { span := some 0 }, id := "1" } { World.init with nextSpan := 1 })
        = some .error := by
  simp [requestEvents_err, spanNamed, endStatus, World.init]

/-- C10, amended: when the query returns a context-cancellation error, the
handler span is ended with its status still unset, the query span and the
business-logic span are ended before it in that order, the span events are
well nested with nothing left open, and the response is the 404 one. -/
theorem cancelled_request_unwinds (c : Request) (w : World) (ms : Int) :
    spanNamed "getUserHandler" (requestEvents { scan := .err .canceled, sinceMs := ms } c w)
      = some w.nextSpan
    ∧ endStatus w.nextSpan (requestEvents { scan := .err .canceled, sinceMs := ms } c w)
      = some .unset
    ∧ endedSpans (requestEvents { scan := .err .canceled, sinceMs := ms } c w)
      = [w.nextSpan + 2, w.nextSpan + 1, w.nextSpan]
    ∧ startedSpans (requestEvents { scan := .err .canceled, sinceMs := ms } c w)
      = [w.nextSpan, w.nextSpan + 1, w.nextSpan + 2]
    ∧ wellNested [] (requestEvents { scan := .err .canceled, sinceMs := ms } c w) = true
    ∧ responses (requestEvents { scan := .err .canceled, sinceMs := ms } c w)
      = [.respond 404 [("error", "user not found")]] := by
  simp [requestEvents_err, spanNamed, endStatus, endedSpans, startedSpans, wellNested, responses]

/-! ## Claims about the bootstrap -/

/-- C7: initDB returns an error exactly when the statement creating the users
table was executed and failed, and then it returns that error; when the
statement succeeded initDB returns nil whatever the seeding insert of
(1, "Alice") returned, and a failed insert is only logged. -/
theorem initDB_fails_only_on_create (env : BootEnv) (w : World) (e : String) :
    ((initDB env w).1 = .returned (some e)
        ↔ Event.dbExec createUsersSQL [] (some e) ∈ added w (initDB env w).2)
    ∧ (Event.dbExec createUsersSQL [] none ∈ added w (initDB env w).2
        → (initDB env w).1 = .returned none)
    ∧ (Event.dbExec insertUserSQL ["1", "Alice"] (some e) ∈ added w (initDB env w).2
        → (initDB env w).1 = .returned none
          ∧ Event.logPrintln ("Insert may have already been done: " ++ e)
              ∈ added w (initDB env w).2) := by
  obtain ⟨a, b, m, o, r, ct, ins⟩ := env
  cases o <;> cases r <;> cases ct <;> cases ins <;>
    simp [initDB, connectDB, note, logFatal, setGlobals, bind, pure, instMonadBoot, Boot.bind,
      Boot.pure, added, createUsersSQL, insertUserSQL] <;>
    first
      | exact eq_comm
      | (intro h; rw [h])

theorem initDB_fails_only_on_create_witness :
    (Event.dbExec insertUserSQL ["1", "Alice"] (some "UNIQUE constraint failed: users.id")
        ∈ added World.init (initDB envDuplicateSeed World.init).2
      ∧ (initDB envDuplicateSeed World.init).1 = .returned none
      ∧ Event.logPrintln
          ("Insert may have already been done: " ++ "UNIQUE constraint failed: users.id")
          ∈ added World.init (initDB envDuplicateSeed World.init).2)
    ∧ (Event.dbExec createUsersSQL [] none ∈ added World.init (initDB envOK World.init).2
      ∧ (initDB envOK World.init).1 = .returned none)
    ∧ (Event.dbExec createUsersSQL [] (some "disk I/O error")
        ∈ added World.init (initDB envCreateFails World.init).2
      ∧ (initDB envCreateFails World.init).1 = .returned (some "disk I/O error")) :=
  have h1 : Event.dbExec insertUserSQL ["1", "Alice"] (some "UNIQUE constraint failed: users.id")
      ∈ added World.init (initDB envDuplicateSeed World.init).2 := by
    simp [initDB, connectDB, note, logFatal, setGlobals, bind, pure, instMonadBoot, Boot.bind,
      Boot.pure, added, createUsersSQL, insertUserSQL, envDuplicateSeed, envOK, World.init]
  have h2 : Event.dbExec createUsersSQL [] none ∈ added World.init (initDB envOK World.init).2 := by
    simp [initDB, connectDB, note, logFatal, setGlobals, bind, pure, instMonadBoot, Boot.bind,
      Boot.pure, added, createUsersSQL, insertUserSQL, envOK, World.init]
  have h3 : Event.dbExec createUsersSQL [] (some "disk I/O error")
      ∈ added World.init (initDB envCreateFails World.init).2 := by
    simp [initDB, connectDB, note, logFatal, setGlobals, bind, pure, instMonadBoot, Boot.bind,
      Boot.pure, added, createUsersSQL, insertUserSQL, envCreateFails, envOK, World.init]
  ⟨⟨h1, (initDB_fails_only_on_create envDuplicateSeed World.init
          "UNIQUE constraint failed: users.id").2.2 h1⟩,
   ⟨h2, (initDB_fails_only_on_create envOK World.init "").2.1 h2⟩,
   ⟨h3, (initDB_fails_only_on_create envCreateFails World.init "disk I/O error").1.mpr h3⟩⟩

/-- C9, as stated, fails: in mode "stdout", when the trace exporter is built and
the construction of the metrics exporter fails, initTracingAndMetrics returns
that error although the tracer provider has already been published, so the
process-wide state is not what it was before the call. -/
theorem init_metrics_failure_publishes_tracer :
    (initTracingAndMetrics
        { stdouttraceNew := none, jaegerNew := none, stdoutmetricNew := some "no console",
          otelsqlOpen := none, registerDBStatsMetrics := none, createTable := none,
          insertSeed := none } "stdout" World.init).1 = .returned (some "no console")
    ∧ (initTracingAndMetrics
        { stdouttraceNew := none, jaegerNew := none, stdoutmetricNew := some "no console",
          otelsqlOpen := none, registerDBStatsMetrics := none, createTable := none,
          insertSeed := none } "stdout" World.init).2.globals.tracerProvider = some .stdout
    ∧ (initTracingAndMetrics
        { stdouttraceNew := none, jaegerNew := none, stdoutmetricNew := some "no console",
          otelsqlOpen := none, registerDBStatsMetrics := none, createTable := none,
          insertSeed := none } "stdout" World.init).2.globals ≠ World.init.globals := by
  simp [initTracingAndMetrics, note, logFatal, setGlobals, bind, pure, instMonadBoot, Boot.bind,
    Boot.pure, World.init]

/-- C9, amended: when the construction of the trace exporter fails,
initTracingAndMetrics returns that error and leaves the process-wide state and
the log as they were; when the trace exporter is built and the construction of
the metrics exporter fails, it returns that error after publishing the tracer
provider and nothing else; and whenever it returns an error, no meter provider,
no meter and no instrument has been published. -/
theorem init_failure_state (env : BootEnv) (mode : String) (w : World) (e : String) :
    (mode = "stdout" → env.stdouttraceNew = some e →
        (initTracingAndMetrics env mode w).1 = .returned (some e)
        ∧ (initTracingAndMetrics env mode w).2 = w)
    ∧ (mode = "jaeger" → env.jaegerNew = some e →
        (initTracingAndMetrics env mode w).1 = .returned (some e)
        ∧ (initTracingAndMetrics env mode w).2 = w)
    ∧ (mode = "stdout" → env.stdouttraceNew = none → env.stdoutmetricNew = some e →
        (initTracingAndMetrics env mode w).1 = .returned (some e)
        ∧ (initTracingAndMetrics env mode w).2.globals
            = { w.globals with tracerProvider := some .stdout }
        ∧ added w (initTracingAndMetrics env mode w).2 = [.setTracerProvider .stdout])
    ∧ (mode = "jaeger" → env.jaegerNew = none → env.stdoutmetricNew = some e →
        (initTracingAndMetrics env mode w).1 = .returned (some e)
        ∧ (initTracingAndMetrics env mode w).2.globals
            = { w.globals with tracerProvider := some .jaeger }
        ∧ added w (initTracingAndMetrics env mode w).2 = [.setTracerProvider .jaeger])
    ∧ ((initTracingAndMetrics env mode w).1 = .returned (some e) →
        (initTracingAndMetrics env mode w).2.globals.meterProvider = w.globals.meterProvider
        ∧ (initTracingAndMetrics env mode w).2.globals.meter = w.globals.meter
        ∧ (initTracingAndMetrics env mode w).2.globals.reqCount = w.globals.reqCount
        ∧ (initTracingAndMetrics env mode w).2.globals.queryTime = w.globals.queryTime
        ∧ Event.setMeterProvider ∉ added w (initTracingAndMetrics env mode w).2
        ∧ Event.newInstrument .reqCount "http_requests_total"
            ∉ added w (initTracingAndMetrics env mode w).2
        ∧ Event.newInstrument .queryTime "db_query_duration_ms"
            ∉ added w (initTracingAndMetrics env mode w).2) := by
  obtain ⟨st, jg, mt, o, r, ct, ins⟩ := env
  by_cases h1 : mode = "stdout"
  · subst h1
    cases st <;> cases mt <;>
      simp [initTracingAndMetrics, note, logFatal, setGlobals, bind, pure, instMonadBoot,
        Boot.bind, Boot.pure, added]
  · by_cases h2 : mode = "jaeger"
    · subst h2
      cases jg <;> cases mt <;>
        simp [initTracingAndMetrics, note, logFatal, setGlobals, bind, pure, instMonadBoot,
          Boot.bind, Boot.pure, added]
    · simp [initTracingAndMetrics, note, logFatal, setGlobals, bind, pure, instMonadBoot,
        Boot.bind, Boot.pure, added, h1, h2]

theorem init_failure_state_witness :
    ((initTracingAndMetrics envTraceFails "stdout" World.init).1
        = .returned (some "no trace writer")
      ∧ (initTracingAndMetrics envTraceFails "stdout" World.init).2 = World.init)
    ∧ ((initTracingAndMetrics envMetricFails "stdout" World.init).1
        = .returned (some "no console")
      ∧ (initTracingAndMetrics envMetricFails "stdout" World.init).2.globals
          = { World.init.globals with tracerProvider := some .stdout }
      ∧ added World.init (initTracingAndMetrics envMetricFails "stdout" World.init).2
          = [.setTracerProvider .stdout])
    ∧ (initTracingAndMetrics envMetricFails "stdout" World.init).2.globals.meterProvider
        = World.init.globals.meterProvider :=
  ⟨(init_failure_state envTraceFails "stdout" World.init "no trace writer").1 rfl rfl,
   (init_failure_state envMetricFails "stdout" World.init "no console").2.2.1 rfl rfl rfl,
   ((init_failure_state envMetricFails "stdout" World.init "no console").2.2.2.2
      ((init_failure_state envMetricFails "stdout" World.init "no console").2.2.1
        rfl rfl rfl).1).1⟩

/-- C3: main reaches r.Run(":8080") exactly when the exporter selector is
"stdout" or "jaeger", initTracingAndMetrics returned nil and initDB returned
nil; for every other selector main exits after logging the unknown mode and
nothing else has happened: no provider or instrument is published, the data
store is not touched, the port is not bound, and the process-wide state is as
before apart from the parsed flag. -/
theorem main_listens_only_when_initialised (env : BootEnv) (flag : Option String) (w : World) :
    (Event.listen ":8080" ∈ added w (main env flag w).2
        ↔ (parseTrace flag = "stdout" ∨ parseTrace flag = "jaeger")
          ∧ (initTracingAndMetrics env (parseTrace flag)
              { w with globals := { w.globals with traceMode := parseTrace flag } }).1
              = .returned none
          ∧ (initDB env
              (initTracingAndMetrics env (parseTrace flag)
                { w with globals := { w.globals with traceMode := parseTrace flag } }).2).1
              = .returned none)
    ∧ (parseTrace flag ≠ "stdout" → parseTrace flag ≠ "jaeger" →
        (main env flag w).1 = .exited
        ∧ added w (main env flag w).2 = [.logFatal ("Unknown trace mode: " ++ parseTrace flag)]
        ∧ startupEffects (added w (main env flag w).2) = []
        ∧ (main env flag w).2.globals = { w.globals with traceMode := parseTrace flag }) := by
  obtain ⟨st, jg, mt, o, r, ct, ins⟩ := env
  by_cases h1 : parseTrace flag = "stdout"
  · cases st <;> cases mt <;>
      simp [main, initTracingAndMetrics, note, logFatal, setGlobals, bind,
        pure, instMonadBoot, Boot.bind, Boot.pure, added, startupEffects, h1]
    cases o <;> cases r <;> cases ct <;> cases ins <;>
      simp [initDB, connectDB, note, logFatal, setGlobals, bind,
        pure, instMonadBoot, Boot.bind, Boot.pure]
  · by_cases h2 : parseTrace flag = "jaeger"
    · cases jg <;> cases mt <;>
        simp [main, initTracingAndMetrics, note, logFatal, setGlobals, bind,
          pure, instMonadBoot, Boot.bind, Boot.pure, added, startupEffects, h2]
      cases o <;> cases r <;> cases ct <;> cases ins <;>
        simp [initDB, connectDB, note, logFatal, setGlobals, bind,
          pure, instMonadBoot, Boot.bind, Boot.pure]
    · simp [main, initTracingAndMetrics, note, logFatal, setGlobals, bind,
        pure, instMonadBoot, Boot.bind, Boot.pure, added, startupEffects, h1, h2]

theorem main_listens_only_when_initialised_witness :
    (Event.listen ":8080" ∈ added World.init (main envOK none World.init).2
      ∧ (parseTrace none = "stdout" ∨ parseTrace none = "jaeger")
      ∧ (initTracingAndMetrics envOK (parseTrace none)
          { World.init with
            globals := { World.init.globals with traceMode := parseTrace none } }).1
          = .returned none)
    ∧ (parseTrace (some "zipkin") ≠ "stdout" ∧ parseTrace (some "zipkin") ≠ "jaeger"
      ∧ (main envOK (some "zipkin") World.init).1 = .exited
      ∧ added World.init (main envOK (some "zipkin") World.init).2
          = [.logFatal ("Unknown trace mode: " ++ parseTrace (some "zipkin"))]) :=
  have h1 : Event.listen ":8080" ∈ added World.init (main envOK none World.init).2 := by
    simp [main, initTracingAndMetrics, initDB, connectDB, note, logFatal, setGlobals, bind,
      pure, instMonadBoot, Boot.bind, Boot.pure, added, envOK, World.init, parseTrace]
  have h2 : parseTrace (some "zipkin") ≠ "stdout" := by simp [parseTrace]
  have h3 : parseTrace (some "zipkin") ≠ "jaeger" := by simp [parseTrace]
  ⟨⟨h1, ((main_listens_only_when_initialised envOK none World.init).1.mp h1).1,
      ((main_listens_only_when_initialised envOK none World.init).1.mp h1).2.1⟩,
   ⟨h2, h3, ((main_listens_only_when_initialised envOK (some "zipkin") World.init).2 h2 h3).1,
      ((main_listens_only_when_initialised envOK (some "zipkin") World.init).2 h2 h3).2.1⟩⟩

end Tracing
